import Mathlib

/-!
Verification development for the Chemical Equipment Visualizer CSV pipeline
(`backend/equipment/views.py` and `backend/equipment/dynamic_csv_handler.py`).

Embedding conventions:
* A pandas cell is `RawCell`: a number (Python int/float, embedded as `ℚ`),
  a text string, or a missing marker (NaN/None).  Python floats are embedded
  as exact rationals; every concrete value appearing in the claims is exactly
  representable, and the order/equality comparisons the code performs on them
  are decided identically on `ℚ`.
* A DataFrame is a `Table`: an ordered list of named columns
  (`List (String × List RawCell)`), the column-major view the code uses.
* Mutation (`df[col] = ...`, `fillna(..., inplace=True)`) is embedded by
  explicit state passing: `process_dynamic_csv` returns both the state of the
  caller's object after the call and the DataFrame the function returns.
* `Series.sample` draws a random subset via the global numpy PRNG; the PRNG
  is made explicit as a `sample` function argument (a family indexed by the
  global seed models seeded runs).
* `Series.std()` (ddof = 1) returns `sqrt` of the sample variance, which
  leaves `ℚ`; we embed the radicand: `std_sq` is the sample variance, with
  `none` standing for pandas' NaN.  `std = 0 ↔ std_sq = 0` and
  `std is NaN ↔ std_sq = none`, so the claims about 0/NaN transfer exactly.
-/

attribute [local semireducible] Rat.add Rat.mul Rat.inv Rat.sub Rat.ofScientific

/-- A raw pandas cell: a number, a string, or the missing marker (NaN/None). -/
inductive RawCell where
  | num (q : ℚ)
  | str (s : String)
  | missing
deriving DecidableEq

/-- A DataFrame, column-major: ordered named columns of cells. -/
abbrev Table := List (String × List RawCell)

/-- pd.isna for a single cell. -/
def isMissingCell : RawCell → Bool
  | .missing => true
  | _ => false

/-- Python `str.strip` / `str.upper` whitespace set (ASCII part). -/
def isPyWhitespace (c : Char) : Bool :=
  c = ' ' || c = '\t' || c = '\n' || c = '\r' || c = '\x0b' || c = '\x0c'

/-- Python `value_str.strip()` over a character list. -/
def stripChars (cs : List Char) : List Char :=
  ((cs.dropWhile isPyWhitespace).reverse.dropWhile isPyWhitespace).reverse

/-- Python `.upper()` (ASCII). -/
def upperChars (cs : List Char) : List Char := cs.map Char.toUpper

/-- Python `.lower()` (ASCII). -/
def lowerChars (cs : List Char) : List Char := cs.map Char.toLower

/-- The sentinel list of `extract_numeric_value`
(`['N/A', 'NA', 'NONE', 'NULL', '', 'AMBIENT', 'ROOM TEMP', 'ATMOSPHERIC']`). -/
def sentinelsUpper : List (List Char) :=
  ["N/A".data, "NA".data, "NONE".data, "NULL".data, "".data,
   "AMBIENT".data, "ROOM TEMP".data, "ATMOSPHERIC".data]

/-- The same sentinels as the spec writes them (lower case). -/
def sentinelsLower : List (List Char) :=
  ["n/a".data, "na".data, "none".data, "null".data, "".data,
   "ambient".data, "room temp".data, "atmospheric".data]

/-- Greedy match of `\d+\.?\d*` at the head of the input
(the unsigned part of the regex `-?\d+\.?\d*`). -/
def matchUnsigned (cs : List Char) : Option (List Char) :=
  let ds := cs.takeWhile Char.isDigit
  if ds.isEmpty then none
  else
    match cs.drop ds.length with
    | '.' :: rest => some (ds ++ '.' :: rest.takeWhile Char.isDigit)
    | _ => some ds

/-- Match of `-?\d+\.?\d*` anchored at the head of the input.  A leading `-`
not followed by a digit fails (after backtracking, `\d+` cannot match `-`). -/
def matchNumAt (cs : List Char) : Option (List Char) :=
  match cs with
  | '-' :: rest => (matchUnsigned rest).map (fun m => '-' :: m)
  | _ => matchUnsigned cs

/-- `re.search(r'-?\d+\.?\d*', s)`: the leftmost match of the pattern. -/
def firstNumericMatch : List Char → Option (List Char)
  | [] => none
  | c :: rest =>
    match matchNumAt (c :: rest) with
    | some m => some m
    | none => firstNumericMatch rest

/-- Numeric value of a digit list (most significant first). -/
def digitsVal (ds : List Char) : Nat :=
  ds.foldl (fun n c => 10 * n + (c.toNat - '0'.toNat)) 0

/-- Python `float()` of an unsigned match `digits ('.' digits*)?`, exactly. -/
def parseUnsignedRat (m : List Char) : ℚ :=
  let intPart := m.takeWhile Char.isDigit
  let fracPart :=
    match m.drop intPart.length with
    | '.' :: fs => fs
    | _ => []
  (digitsVal intPart : ℚ) + (digitsVal fracPart : ℚ) / ((10 : ℚ) ^ fracPart.length)

/-- Python `float()` of a match of `-?\d+\.?\d*`, exactly. -/
def parseRat (m : List Char) : ℚ :=
  match m with
  | '-' :: rest => -(parseUnsignedRat rest)
  | _ => parseUnsignedRat m

/-- `extract_numeric_value` (dynamic_csv_handler.py lines 11-35; the identical
copy in views.py lines 22-46): `None` for NaN; numbers coerced to float;
otherwise strip, test the sentinel list case-insensitively (via `.upper()`),
then take the leftmost `-?\d+\.?\d*` match, else `None`. -/
def extract_numeric_value (v : RawCell) : Option ℚ :=
  match v with
  | .missing => none
  | .num q => some q
  | .str s =>
    let t := stripChars s.data
    if upperChars t ∈ sentinelsUpper then none
    else (firstNumericMatch t).map parseRat

/-- The Value Normalizer as the spec states it: same shape, but the sentinel
set is written in lower case and compared case-insensitively. -/
def normalizeSpec (v : RawCell) : Option ℚ :=
  match v with
  | .missing => none
  | .num q => some q
  | .str s =>
    let t := stripChars s.data
    if ∃ w ∈ sentinelsLower, upperChars t = upperChars w then none
    else (firstNumericMatch t).map parseRat

/-! ## Generic column helpers -/

/-- Number of NaN cells of a column (`series.isna().sum()`). -/
def countMissing (cells : List RawCell) : Nat :=
  (cells.filter isMissingCell).length

/-- The non-missing cells of a column (`series.dropna()`). -/
def nonMissing (cells : List RawCell) : List RawCell :=
  cells.filter (fun c => ! isMissingCell c)

/-- The numeric values present in a column (used on columns that hold only
numbers or NaN, as the post-normalization numeric columns do; string cells do
not occur there). -/
def presentRats (cells : List RawCell) : List ℚ :=
  cells.filterMap (fun c => match c with | .num q => some q | _ => none)

/-- `series.mean()` over the present values. -/
def ratMean (xs : List ℚ) : ℚ := xs.sum / (xs.length : ℚ)

/-- `series.min()` over a nonempty list (0 as an unused default). -/
def listMin (xs : List ℚ) : ℚ :=
  match xs with
  | [] => 0
  | x :: rest => rest.foldl min x

/-- `series.max()` over a nonempty list (0 as an unused default). -/
def listMax (xs : List ℚ) : ℚ :=
  match xs with
  | [] => 0
  | x :: rest => rest.foldl max x

/-- Insertion into a sorted list (ascending). -/
def insertSorted (x : ℚ) : List ℚ → List ℚ
  | [] => [x]
  | y :: rest => if x ≤ y then x :: y :: rest else y :: insertSorted x rest

/-- Insertion sort, ascending (the order `median` uses). -/
def sortRats (xs : List ℚ) : List ℚ := xs.foldr insertSorted []

/-- `series.median()`: middle value, or the mean of the two middles. -/
def ratMedian (xs : List ℚ) : ℚ :=
  let s := sortRats xs
  let n := s.length
  if n % 2 = 1 then s.getD (n / 2) 0
  else (s.getD (n / 2 - 1) 0 + s.getD (n / 2) 0) / 2

/-- The sample variance Σ (x − mean)² / (n − 1): the square of pandas
`series.std()` (ddof = 1) when n ≥ 2. -/
def sampleVarQ (xs : List ℚ) : ℚ :=
  ((xs.map (fun x => (x - ratMean xs) ^ 2)).sum) / ((xs.length - 1 : Nat) : ℚ)

/-- Square of `float(col_data.std()) if len(col_data) > 1 else 0.0`
(dynamic_csv_handler.py line 144): the n = 1 case is forced to 0. -/
def dynStdSq (xs : List ℚ) : ℚ :=
  if xs.length > 1 then sampleVarQ xs else 0

/-- Square of bare pandas `series.std()` (ddof = 1), as the fixed-schema path
calls it (views.py lines 186/193/200): NaN (`none`) when n ≤ 1. -/
def pandasStdSq (xs : List ℚ) : Option ℚ :=
  if xs.length ≤ 1 then none else some (sampleVarQ xs)

/-- Round half-to-even to an integer (the tie behaviour of Python's
string formatting). -/
def roundHalfEvenQ (q : ℚ) : ℤ :=
  let f := Rat.floor q
  let r := q - f
  if r < 1 / 2 then f
  else if 1 / 2 < r then f + 1
  else if f % 2 = 0 then f else f + 1

/-- Two-digit zero-padded rendering of a Nat below 100. -/
def twoDigits (n : Nat) : String :=
  if n < 10 then "0" ++ toString n else toString n

/-- Python's `f"...:.2f"` formatting of a mean, embedded exactly on the
rationals (the means in the claims are exact two-decimal values, where the
binary-float formatting agrees). -/
def formatRat2 (q : ℚ) : String :=
  let c := roundHalfEvenQ (q * 100)
  let sign := if c < 0 then "-" else ""
  sign ++ toString (c.natAbs / 100) ++ "." ++ twoDigits (c.natAbs % 100)

/-! ## Schema detection (`detect_column_types`, dynamic_csv_handler.py 38-83) -/

/-- Python's `pat in s` substring test. -/
def isSubstr (pat : List Char) : List Char → Bool
  | [] => pat.isEmpty
  | c :: rest => pat.isPrefixOf (c :: rest) || isSubstr pat rest

/-- The identifier keywords of line 56: `['id', 'name', 'code', 'serial']`. -/
def idKeywords : List (List Char) :=
  ["id".data, "name".data, "code".data, "serial".data]

/-- `any(keyword in col.lower() for keyword in ...)`. -/
def hasIdKeyword (name : String) : Bool :=
  idKeywords.any (fun k => isSubstr k (lowerChars name.data))

/-- The dict returned by the detector:
`{'id_column': ..., 'category_columns': [...], 'numeric_columns': [...]}`. -/
structure ColumnTypes where
  id_column : Option String
  category_columns : List String
  numeric_columns : List String
deriving DecidableEq

/-- The majority test of lines 66-74: draw the sample of the non-missing
cells and ask whether `numeric_count / len(sample) > 0.5`, i.e. whether
`len(sample) < 2 * numeric_count` (the float comparison with `0.5` is exact
for the sample ratios). -/
def isNumericSample (sample : List RawCell → List RawCell)
    (cells : List RawCell) : Bool :=
  let smp := sample (nonMissing cells)
  smp.length < 2 * (smp.filter (fun v => (extract_numeric_value v).isSome)).length

/-- One loop iteration of `detect_column_types` over a column.  `sample`
stands for `non_null_values.sample(min(5, len(non_null_values)))`: the
selection the global numpy PRNG produces (it returns `min 5 n` of the `n`
given cells; the classification only reads the returned cells). -/
def detectStep (sample : List RawCell → List RawCell)
    (st : ColumnTypes) (col : String × List RawCell) : ColumnTypes :=
  if (col.2.all isMissingCell) then st
  else if st.id_column.isNone && hasIdKeyword col.1 then
    { st with id_column := some col.1 }
  else if (nonMissing col.2).isEmpty then st
  else if isNumericSample sample col.2 then
    { st with numeric_columns := st.numeric_columns ++ [col.1] }
  else
    { st with category_columns := st.category_columns ++ [col.1] }

/-- `detect_column_types(df)`: fold the loop over the columns, then the
fallback `id_column = df.columns[0]` when no keyword column was found. -/
def detect_column_types (sample : List RawCell → List RawCell)
    (df : Table) : ColumnTypes :=
  let st := df.foldl (detectStep sample) ⟨none, [], []⟩
  match st.id_column, df with
  | none, (n, _) :: _ => { st with id_column := some n }
  | _, _ => st

/-- A concrete admissible sampling function (the first `min 5 n` values);
used to instantiate the PRNG at concrete inputs.  Columns of at most 5
non-missing values are returned whole by every admissible sampling, so the
classification of such columns does not depend on this choice. -/
def takeFive (l : List RawCell) : List RawCell := l.take 5

/-! ## Cleaning and imputation (`process_dynamic_csv`, lines 86-127) -/

/-- `df[col].apply(extract_numeric_value)`. -/
def normalizeCells (cells : List RawCell) : List RawCell :=
  cells.map (fun c => match extract_numeric_value c with
                      | some q => .num q
                      | none => .missing)

/-- The per-column body of the loop of lines 97-115: normalize, warn about
regressions, mean-impute.  Returns the new cells and the warnings in
emission order. -/
def imputeCol (name : String) (cells : List RawCell) : List RawCell × List String :=
  let cells1 := normalizeCells cells
  let failed := countMissing cells1 - countMissing cells
  let w1 : List String :=
    if 0 < failed then [name ++ ": " ++ toString failed ++ " values could not be parsed"]
    else []
  let present := presentRats cells1
  if 0 < countMissing cells1 ∧ present ≠ [] then
    let m := ratMean present
    (cells1.map (fun c => if isMissingCell c then .num m else c),
     w1 ++ [name ++ ": Missing values filled with mean (" ++ formatRat2 m ++ ")"])
  else (cells1, w1)

/-- One `for col in column_types['numeric_columns']` iteration, rewriting the
named column in place and appending its warnings. -/
def processNumCol (acc : Table × List String) (cname : String) : Table × List String :=
  let tbl := acc.1
  let wsNew := match tbl.find? (fun p => p.1 = cname) with
               | some p => (imputeCol cname p.2).2
               | none => []
  (tbl.map (fun p => if p.1 = cname then (p.1, (imputeCol cname p.2).1) else p),
   acc.2 ++ wsNew)

/-- Number of rows of a DataFrame (`len(df)`). -/
def nrows (df : Table) : Nat :=
  match df with
  | [] => 0
  | c :: _ => c.2.length

/-- Is row `i` missing in every column (the `how='all'` test)? -/
def rowAllMissing (df : Table) (i : Nat) : Bool :=
  df.all (fun c => match c.2.get? i with
                   | some cell => isMissingCell cell
                   | none => true)

/-- `df.dropna(how='all')`: drop the rows whose every cell is missing. -/
def dropAllMissingRows (df : Table) : Table :=
  let keep := (List.range (nrows df)).filter (fun i => ! rowAllMissing df i)
  df.map (fun c => (c.1, keep.filterMap (fun i => c.2.get? i)))

/-- Result of `process_dynamic_csv`.  The function mutates its argument in
place (`df[col] = ...`, `fillna(..., inplace=True)`) and then rebinds its
local `df` to `df.dropna(how='all')`, so the caller's object and the returned
DataFrame differ: `callerTable` is the caller's object after the call,
`table` is the returned DataFrame. -/
structure ProcessResult where
  callerTable : Table
  table : Table
  warnings : List String
  total_rows : Nat
  total_columns : Nat
  column_types : ColumnTypes
deriving DecidableEq

/-- `process_dynamic_csv(df)` (lines 86-127). -/
def process_dynamic_csv (sample : List RawCell → List RawCell)
    (df : Table) : ProcessResult :=
  let ct := detect_column_types sample df
  let step := ct.numeric_columns.foldl processNumCol (df, [])
  let dfOut := dropAllMissingRows step.1
  { callerTable := step.1
    table := dfOut
    warnings := step.2
    total_rows := nrows dfOut
    total_columns := dfOut.length
    column_types := ct }

/-! ## Dynamic statistics (`calculate_dynamic_statistics`, lines 130-149) -/

/-- One entry of the statistics dict.  `std_sq` is the square of the reported
`std_dev` (see the header note). -/
structure DynColStats where
  mean : ℚ
  minVal : ℚ
  maxVal : ℚ
  std_sq : ℚ
  median : ℚ
  count : Nat
deriving DecidableEq

/-- `calculate_dynamic_statistics(df, numeric_columns)`. -/
def calculate_dynamic_statistics (df : Table) (numeric : List String) :
    List (String × DynColStats) :=
  numeric.filterMap (fun cname =>
    match df.find? (fun p => p.1 = cname) with
    | none => none
    | some p =>
      let xs := presentRats p.2
      if xs.isEmpty then none
      else some (cname,
        { mean := ratMean xs
          minVal := listMin xs
          maxVal := listMax xs
          std_sq := dynStdSq xs
          median := ratMedian xs
          count := xs.length }))

/-! ## Visualization planner (`create_visualizations_config`, lines 152-188) -/

/-- A chart descriptor. -/
inductive Chart where
  | bar (title : String) (columns : List String) (descr : String)
  | pie (title : String) (column : String) (descr : String)
  | scatter (title : String) (xCol yCol : String) (descr : String)
deriving DecidableEq

/-- `create_visualizations_config(column_types, sample_data)` (the sample-data
argument is unused by the source). -/
def create_visualizations_config (ct : ColumnTypes) : List Chart :=
  (if ct.numeric_columns.isEmpty then []
   else [.bar "Average Values Comparison" (ct.numeric_columns.take 6)
           "Comparison of average values across numeric fields"]) ++
  (match ct.category_columns with
   | [] => []
   | c :: _ => [.pie (c ++ " Distribution") c ("Distribution of records by " ++ c)]) ++
  (match ct.numeric_columns with
   | a :: b :: _ => [.scatter "Correlation Analysis" a b
                      "Relationship between key numeric variables"]
   | _ => [])

/-! ## The dynamic upload endpoint (`upload_dynamic`, views.py 280-382) -/

/-- A value of the metadata dict built at dynamic_csv_handler.py lines
120-125 (heterogeneous dict values). -/
inductive MetaEntry where
  | types (ct : ColumnTypes)
  | strs (ws : List String)
  | natVal (n : Nat)
  | optStr (s : Option String)
deriving DecidableEq

/-- Python truthiness of a metadata value (`if not metadata['is_valid']`). -/
def metaTruthy : MetaEntry → Bool
  | .types _ => true
  | .strs ws => ! ws.isEmpty
  | .natVal n => n ≠ 0
  | .optStr s => s.isSome

/-- The metadata dict that `process_dynamic_csv` actually returns: keys
`column_types`, `validation_warnings`, `total_rows`, `total_columns` and no
others (in particular no `is_valid` key). -/
def metadataAssoc (res : ProcessResult) : List (String × MetaEntry) :=
  [("column_types", .types res.column_types),
   ("validation_warnings", .strs res.warnings),
   ("total_rows", .natVal res.total_rows),
   ("total_columns", .natVal res.total_columns)]

/-- The `column_types` dict as a Python dict (views.py line 358 subscripts it
with the key `id_columns`). -/
def columnTypesAssoc (ct : ColumnTypes) : List (String × MetaEntry) :=
  [("id_column", .optStr ct.id_column),
   ("category_columns", .strs ct.category_columns),
   ("numeric_columns", .strs ct.numeric_columns)]

/-- Python dict subscription: `none` is a KeyError. -/
def lookupMeta (m : List (String × MetaEntry)) (k : String) : Option MetaEntry :=
  (m.find? (fun p => p.1 = k)).map Prod.snd

/-- Outcome of the `upload_dynamic` view: a 201 success response or a 400
error response (KeyErrors escape to the generic `except Exception` handler,
which returns the 400 `'Failed to process CSV file'` response). -/
inductive DynOutcome where
  | badRequest (msg : String)
  | created (res : ProcessResult) (stats : List (String × DynColStats))
      (vis : List Chart)
deriving DecidableEq

/-- `upload_dynamic(request)` after CSV decoding (views.py lines 299-382):
empty check, `process_dynamic_csv`, the `metadata['is_valid']` read (line
311), statistics, visualizations, and the response assembly that reads
`column_types['id_columns']` (line 358). -/
def upload_dynamic (sample : List RawCell → List RawCell) (df : Table) :
    DynOutcome :=
  if nrows df = 0 then .badRequest "CSV file is empty"
  else
    let res := process_dynamic_csv sample df
    match lookupMeta (metadataAssoc res) "is_valid" with
    | none => .badRequest "Failed to process CSV file"
    | some v =>
      if ! metaTruthy v then .badRequest "Invalid CSV structure"
      else
        let stats := calculate_dynamic_statistics res.table res.column_types.numeric_columns
        let vis := create_visualizations_config res.column_types
        match lookupMeta (columnTypesAssoc res.column_types) "id_columns" with
        | none => .badRequest "Failed to process CSV file"
        | some _ => .created res stats vis

/-! ## The fixed-schema upload endpoint (`upload`, views.py 77-278) -/

/-- `required_columns` of views.py line 105. -/
def requiredColumns : List String :=
  ["Equipment Name", "Type", "Flowrate", "Pressure", "Temperature"]

/-- `numeric_columns` of views.py line 113. -/
def numericColumnsFixed : List String := ["Flowrate", "Pressure", "Temperature"]

/-- The cells of the named column (`df[name]`; `[]` if absent). -/
def colCells (df : Table) (name : String) : List RawCell :=
  match df.find? (fun p => p.1 = name) with
  | some p => p.2
  | none => []

/-- The numeric values present in the named column. -/
def presentVals (df : Table) (name : String) : List ℚ :=
  presentRats (colCells df name)

/-- The required columns absent from the table (views.py line 106). -/
def missingRequired (df : Table) : List String :=
  requiredColumns.filter (fun c => ! (df.map Prod.fst).contains c)

/-- Lines 113-115: apply `extract_numeric_value` over the three numeric
columns. -/
def parseNumericCols (df : Table) : Table :=
  df.map (fun p => if p.1 ∈ numericColumnsFixed then (p.1, normalizeCells p.2) else p)

/-- Is row `i` missing in every column of the `subset`? -/
def rowAllMissingIn (df : Table) (subset : List String) (i : Nat) : Bool :=
  subset.all (fun n => match (colCells df n).get? i with
                       | some cell => isMissingCell cell
                       | none => true)

/-- Line 118: `df.dropna(subset=numeric_columns, how='all')`. -/
def dropSubsetAllMissing (df : Table) : Table :=
  let keep := (List.range (nrows df)).filter
    (fun i => ! rowAllMissingIn df numericColumnsFixed i)
  df.map (fun c => (c.1, keep.filterMap (fun i => c.2.get? i)))

/-- Lines 131-136 for one column: warn about missing values and mean-fill
them (`fillna` with a NaN mean, i.e. an all-missing column, is a no-op). -/
def imputeFixedCol (name : String) (cells : List RawCell) :
    List RawCell × List String :=
  let nullCount := countMissing cells
  if 0 < nullCount then
    let present := presentRats cells
    let filled := match present with
                  | [] => cells
                  | _ => cells.map (fun c =>
                      if isMissingCell c then .num (ratMean present) else c)
    (filled, [name ++ " has " ++ toString nullCount ++
              " missing or unparseable value(s) - rows will use average"])
  else (cells, [])

/-- The `for col in numeric_columns` loop of lines 131-136. -/
def imputeFixed (df : Table) : Table × List String :=
  numericColumnsFixed.foldl (fun acc cname =>
    let wsNew := match acc.1.find? (fun p => p.1 = cname) with
                 | some p => (imputeFixedCol cname p.2).2
                 | none => []
    (acc.1.map (fun p => if p.1 = cname then (p.1, (imputeFixedCol cname p.2).1) else p),
     acc.2 ++ wsNew)) (df, [])

/-- `str(value)` as `astype(str)` renders a cell (NaN becomes the non-empty
text `nan`; a float's repr is never empty). -/
def cellPyStr : RawCell → String
  | .str s => s
  | .num q => toString q
  | .missing => "nan"

/-- Is the cell's `astype(str).str.strip()` the empty string? -/
def cellStrBlank (c : RawCell) : Bool :=
  stripChars (cellPyStr c).data = ([] : List Char)

/-- Lines 142-168: the `validation_errors` list, one message per violated
check, in source order; every check runs (no short-circuit). -/
def fixedValidationErrors (df : Table) : List String :=
  (if (presentVals df "Flowrate").any (fun q => decide (q < 0)) then
     ["Flowrate cannot be negative"] else []) ++
  (if (presentVals df "Flowrate").any (fun q => decide (10000 < q)) then
     ["Flowrate exceeds maximum allowed value (10000)"] else []) ++
  (if (presentVals df "Pressure").any (fun q => decide (q < 0)) then
     ["Pressure cannot be negative"] else []) ++
  (if (presentVals df "Pressure").any (fun q => decide (1000 < q)) then
     ["Pressure exceeds maximum allowed value (1000)"] else []) ++
  (if (presentVals df "Temperature").any (fun q => decide (q < -273.15)) then
     ["Temperature cannot be below absolute zero (-273.15°C)"] else []) ++
  (if (presentVals df "Temperature").any (fun q => decide (5000 < q)) then
     ["Temperature exceeds maximum allowed value (5000°C)"] else []) ++
  (if (colCells df "Equipment Name").any cellStrBlank then
     ["Equipment Name cannot be empty"] else []) ++
  (if (colCells df "Type").any cellStrBlank then
     ["Equipment Type cannot be empty"] else [])

/-- Per-column statistics of the fixed path (lines 181-203): bare pandas
reductions, `none` embedding NaN (empty column, or `std` with n ≤ 1). -/
structure ColStatsF where
  mean : Option ℚ
  minVal : Option ℚ
  maxVal : Option ℚ
  std_sq : Option ℚ
  median : Option ℚ
deriving DecidableEq

/-- The stats of one fixed column. -/
def colStatsF (df : Table) (name : String) : ColStatsF :=
  let xs := presentVals df name
  { mean := if xs.isEmpty then none else some (ratMean xs)
    minVal := if xs.isEmpty then none else some (listMin xs)
    maxVal := if xs.isEmpty then none else some (listMax xs)
    std_sq := pandasStdSq xs
    median := if xs.isEmpty then none else some (ratMedian xs) }

/-- The `stats` dict of lines 181-203. -/
structure FixedStats where
  flowrate : ColStatsF
  pressure : ColStatsF
  temperature : ColStatsF
deriving DecidableEq

/-- Assemble the fixed statistics. -/
def fixedStatistics (df : Table) : FixedStats :=
  { flowrate := colStatsF df "Flowrate"
    pressure := colStatsF df "Pressure"
    temperature := colStatsF df "Temperature" }

/-- A persisted `Dataset` row (models.py): `uploaded_at` embeds the
`auto_now_add` timestamp, strictly increasing across sequential uploads. -/
structure DatasetRec where
  name : String
  uploadedAt : Nat
  totalCount : Nat
deriving DecidableEq

/-- The next `auto_now_add` timestamp: later than every stored one. -/
def nextTime (store : List DatasetRec) : Nat :=
  (store.map DatasetRec.uploadedAt).foldr max 0 + 1

/-- Outcome of the fixed `upload` view: 400 error (message and the
`validation_errors` list when present) or 201 created. -/
inductive UploadResult where
  | error (msg : String) (validationErrors : List String)
  | created (stats : FixedStats) (warnings : List String) (total : Nat)
deriving DecidableEq

/-- The cleaned table inside `upload`: parse the numeric columns, drop the
rows with no numeric data, mean-impute. -/
def cleanedFixed (df : Table) : Table :=
  (imputeFixed (dropSubsetAllMissing (parseNumericCols df))).1

/-- The warnings `upload` accumulates at lines 131-136. -/
def fixedWarnings (df : Table) : List String :=
  (imputeFixed (dropSubsetAllMissing (parseNumericCols df))).2

/-- `upload(request)` after CSV decoding (views.py lines 100-268), paired
with the datastore: empty check, required columns, parsing, subset dropna,
post-parse empty check, impute + warnings, validation, statistics,
persistence and the keep-last-5 retention (lines 227-230).  The store is the
`Dataset.objects.all()` queryset in its `-uploaded_at` ordering (newest
first); error responses leave it untouched. -/
def upload (store : List DatasetRec) (fileName : String) (df : Table) :
    UploadResult × List DatasetRec :=
  if nrows df = 0 then (.error "CSV file is empty" [], store)
  else if ! (missingRequired df).isEmpty then
    (.error ("CSV is missing required columns: " ++
             String.intercalate ", " (missingRequired df)) [], store)
  else
    let df2 := dropSubsetAllMissing (parseNumericCols df)
    if nrows df2 = 0 then
      (.error "CSV file contains no valid numeric data after parsing" [], store)
    else
      let cleaned := cleanedFixed df
      let errs := fixedValidationErrors cleaned
      if ! errs.isEmpty then (.error "Data validation failed" errs, store)
      else
        let newRec : DatasetRec :=
          { name := fileName, uploadedAt := nextTime store, totalCount := nrows cleaned }
        ((.created (fixedStatistics cleaned) (fixedWarnings df) (nrows cleaned)),
         (newRec :: store).take 5)

/-- `n` sequential uploads of the same file starting from an empty store. -/
def ingestTimes (fileName : String) (df : Table) : Nat → List DatasetRec
  | 0 => []
  | n + 1 => (upload (ingestTimes fileName df n) fileName df).2

/-- The warnings of an upload outcome. -/
def uploadWarnings : UploadResult → List String
  | .created _ ws _ => ws
  | .error _ _ => []

/-- Was the outcome a 201? -/
def uploadIsCreated : UploadResult → Bool
  | .created _ _ _ => true
  | .error _ _ => false

/-- The flowrate mean of a created outcome. -/
def uploadFlowMean : UploadResult → Option (Option ℚ)
  | .created st _ _ => some st.flowrate.mean
  | .error _ _ => none

/-- The flowrate `std_sq` of a created outcome (`none` outside 201). -/
def uploadFlowStdSq : UploadResult → Option (Option ℚ)
  | .created st _ _ => some st.flowrate.std_sq
  | .error _ _ => none

/-! ## Concrete inputs used by the claims -/

/-- The fixed-schema scenario rows of the spec (section 8):
`("Pump-1","Pump","120 L/min","45 psi","80C")` and
`("Pump-2","Pump","N/A","50","90")`. -/
def c4Table : Table :=
  [("Equipment Name", [.str "Pump-1", .str "Pump-2"]),
   ("Type", [.str "Pump", .str "Pump"]),
   ("Flowrate", [.str "120 L/min", .str "N/A"]),
   ("Pressure", [.str "45 psi", .str "50"]),
   ("Temperature", [.str "80C", .str "90"])]

/-- Two keyword-free columns; the first is numeric, so the fallback
identifier coincides with an already-classified column. -/
def c5Table : Table := [("temp", [.str "5"]), ("val", [.str "x"])]

/-- A missing-free column holding two numeric strings and one unparseable
string: it is classified numeric, and cleaning changes it. -/
def c9Table : Table := [("Reading", [.str "5", .str "7", .str "abc"])]

/-- The cleaned form of `c9Table` (what a second cleaning run receives). -/
def c9Cleaned : Table := [("Reading", [.num 5, .num 7, .num 6])]

/-- A numeric column of raw strings: normalization overwrites the caller's
object. -/
def c10Table : Table := [("Reading", [.str "5", .str "7"])]

/-- The dynamic-ingestion scenario table of the spec (section 8). -/
def c8Table : Table :=
  [("SensorID", [.str "S1", .str "S2"]),
   ("Zone", [.str "North", .str "South"]),
   ("Reading1", [.num 5, .num 7]),
   ("Reading2", [.num 1, .num 2])]

/-- A seed-indexed family of sampling functions (the numpy global PRNG under
a fixed seed is one such family member per seed). -/
def exRng : Nat → List RawCell → List RawCell := fun _ => takeFive

/-- A single valid fixed-schema row. -/
def oneRowTable : Table :=
  [("Equipment Name", [.str "P1"]),
   ("Type", [.str "Pump"]),
   ("Flowrate", [.num 100]),
   ("Pressure", [.num 10]),
   ("Temperature", [.num 20])]

/-- A fixed-schema table violating all eight validation checks at once. -/
def c2WTable : Table :=
  [("Equipment Name", [.str "", .str "A"]),
   ("Type", [.str " ", .str "B"]),
   ("Flowrate", [.num 15000, .num (-1)]),
   ("Pressure", [.num (-2), .num 2000]),
   ("Temperature", [.num (-300), .num 9000])]

/-- Is the cell a number (decidably)? -/
def isNumCell : RawCell → Bool
  | .num _ => true
  | _ => false

/-! ## Helper lemmas -/

theorem mem_cond (c : Bool) (m x : String) :
    (x ∈ if c then [m] else []) ↔ (c = true ∧ x = m) := by
  cases c <;> simp

theorem sentinelsUpper_eq_map : sentinelsUpper = sentinelsLower.map upperChars := by
  decide

theorem nonMissing_isEmpty (cells : List RawCell) :
    (nonMissing cells).isEmpty = cells.all isMissingCell := by
  induction cells with
  | nil => rfl
  | cons c rest ih =>
    cases hc : isMissingCell c
    · simp [nonMissing, List.filter_cons, hc, List.all_cons]
    · simp only [nonMissing, List.filter_cons, hc, List.all_cons, Bool.true_and,
        if_pos] at ih ⊢
      exact ih

theorem detectStep_characterize (sample : List RawCell → List RawCell)
    (st : ColumnTypes) (c : String × List RawCell) :
    (c.2.all isMissingCell = true ∧ detectStep sample st c = st) ∨
    (c.2.all isMissingCell = false ∧ st.id_column = none ∧ hasIdKeyword c.1 = true ∧
       detectStep sample st c = { st with id_column := some c.1 }) ∨
    (c.2.all isMissingCell = false ∧
       detectStep sample st c = { st with numeric_columns := st.numeric_columns ++ [c.1] }) ∨
    (c.2.all isMissingCell = false ∧
       detectStep sample st c = { st with category_columns := st.category_columns ++ [c.1] }) := by
  unfold detectStep
  split_ifs with h1 h2 h3
  · exact Or.inl ⟨h1, rfl⟩
  · rw [Bool.and_eq_true] at h2
    exact Or.inr (Or.inl ⟨by simpa using h1, Option.isNone_iff_eq_none.1 h2.1, h2.2, rfl⟩)
  · exfalso
    have h := nonMissing_isEmpty c.2
    rw [h3] at h
    exact h1 h.symm
  · exact Or.inr (Or.inr (Or.inl ⟨by simpa using h1, rfl⟩))
  · exact Or.inr (Or.inr (Or.inr ⟨by simpa using h1, rfl⟩))

theorem foldDetect_id_some (sample : List RawCell → List RawCell) :
    ∀ (cs : Table) (st : ColumnTypes) (a : String), st.id_column = some a →
      (cs.foldl (detectStep sample) st).id_column = some a := by
  intro cs
  induction cs with
  | nil => intro st a h; simpa using h
  | cons c rest ih =>
    intro st a h
    rw [List.foldl_cons]
    refine ih _ a ?_
    rcases detectStep_characterize sample st c with ⟨_, he⟩ | ⟨_, hn, _, _⟩ | ⟨_, he⟩ | ⟨_, he⟩
    · rw [he]; exact h
    · rw [hn] at h; exact absurd h (by simp)
    · rw [he]; exact h
    · rw [he]; exact h

theorem foldDetect_num_mono (sample : List RawCell → List RawCell) :
    ∀ (cs : Table) (st : ColumnTypes) (x : String), x ∈ st.numeric_columns →
      x ∈ (cs.foldl (detectStep sample) st).numeric_columns := by
  intro cs
  induction cs with
  | nil => intro st x h; simpa using h
  | cons c rest ih =>
    intro st x h
    rw [List.foldl_cons]
    refine ih _ x ?_
    rcases detectStep_characterize sample st c with ⟨_, he⟩ | ⟨_, _, _, he⟩ | ⟨_, he⟩ | ⟨_, he⟩ <;>
      rw [he] <;> simp [h]

theorem foldDetect_cat_mono (sample : List RawCell → List RawCell) :
    ∀ (cs : Table) (st : ColumnTypes) (x : String), x ∈ st.category_columns →
      x ∈ (cs.foldl (detectStep sample) st).category_columns := by
  intro cs
  induction cs with
  | nil => intro st x h; simpa using h
  | cons c rest ih =>
    intro st x h
    rw [List.foldl_cons]
    refine ih _ x ?_
    rcases detectStep_characterize sample st c with ⟨_, he⟩ | ⟨_, _, _, he⟩ | ⟨_, he⟩ | ⟨_, he⟩ <;>
      rw [he] <;> simp [h]

theorem foldDetect_num_source (sample : List RawCell → List RawCell) :
    ∀ (cs : Table) (st : ColumnTypes) (x : String),
      x ∈ (cs.foldl (detectStep sample) st).numeric_columns →
      x ∈ st.numeric_columns ∨ x ∈ cs.map Prod.fst := by
  intro cs
  induction cs with
  | nil => intro st x h; simpa using h
  | cons c rest ih =>
    intro st x h
    rw [List.foldl_cons] at h
    rcases ih _ x h with hst | hrest
    · rcases detectStep_characterize sample st c with ⟨_, he⟩ | ⟨_, _, _, he⟩ | ⟨_, he⟩ | ⟨_, he⟩ <;>
        rw [he] at hst <;> simp at hst ⊢ <;> tauto
    · simp [hrest]

theorem foldDetect_cat_source (sample : List RawCell → List RawCell) :
    ∀ (cs : Table) (st : ColumnTypes) (x : String),
      x ∈ (cs.foldl (detectStep sample) st).category_columns →
      x ∈ st.category_columns ∨ x ∈ cs.map Prod.fst := by
  intro cs
  induction cs with
  | nil => intro st x h; simpa using h
  | cons c rest ih =>
    intro st x h
    rw [List.foldl_cons] at h
    rcases ih _ x h with hst | hrest
    · rcases detectStep_characterize sample st c with ⟨_, he⟩ | ⟨_, _, _, he⟩ | ⟨_, he⟩ | ⟨_, he⟩ <;>
        rw [he] at hst <;> simp at hst ⊢ <;> tauto
    · simp [hrest]

theorem foldDetect_elem (sample : List RawCell → List RawCell) :
    ∀ (cs : Table) (st : ColumnTypes) (p : String × List RawCell),
      p ∈ cs → (cs.map Prod.fst).Nodup →
      p.1 ∉ st.numeric_columns → p.1 ∉ st.category_columns →
      (p.2.all isMissingCell = false →
        ((p.1 ∈ (cs.foldl (detectStep sample) st).numeric_columns ∧
          p.1 ∉ (cs.foldl (detectStep sample) st).category_columns) ∨
         (p.1 ∈ (cs.foldl (detectStep sample) st).category_columns ∧
          p.1 ∉ (cs.foldl (detectStep sample) st).numeric_columns) ∨
         ((cs.foldl (detectStep sample) st).id_column = some p.1 ∧
          hasIdKeyword p.1 = true ∧
          p.1 ∉ (cs.foldl (detectStep sample) st).numeric_columns ∧
          p.1 ∉ (cs.foldl (detectStep sample) st).category_columns))) ∧
      (p.2.all isMissingCell = true →
        p.1 ∉ (cs.foldl (detectStep sample) st).numeric_columns ∧
        p.1 ∉ (cs.foldl (detectStep sample) st).category_columns) := by
  intro cs
  induction cs with
  | nil => intro st p hmem; exact absurd hmem (List.not_mem_nil p)
  | cons c rest ih =>
    intro st p hmem hnd hn hc
    have hndr : (rest.map Prod.fst).Nodup := by simpa using hnd.of_cons
    have hcrest : c.1 ∉ rest.map Prod.fst := by
      have h := hnd
      rw [List.map_cons, List.nodup_cons] at h
      exact h.1
    rcases List.mem_cons.1 hmem with rfl | hrest
    · rw [List.foldl_cons]
      rcases detectStep_characterize sample st p with ⟨hm, he⟩ | ⟨hm, _, hkw, he⟩ |
          ⟨hm, he⟩ | ⟨hm, he⟩
      · rw [he]
        constructor
        · intro hf; rw [hm] at hf; cases hf
        · intro _
          constructor
          · intro hmemnum
            rcases foldDetect_num_source sample rest st p.1 hmemnum with h | h
            · exact hn h
            · exact hcrest h
          · intro hmemcat
            rcases foldDetect_cat_source sample rest st p.1 hmemcat with h | h
            · exact hc h
            · exact hcrest h
      · rw [he]
        constructor
        · intro _
          refine Or.inr (Or.inr ⟨?_, hkw, ?_, ?_⟩)
          · exact foldDetect_id_some sample rest _ p.1 rfl
          · intro hmemnum
            rcases foldDetect_num_source sample rest _ p.1 hmemnum with h | h
            · exact hn (by simpa using h)
            · exact hcrest h
          · intro hmemcat
            rcases foldDetect_cat_source sample rest _ p.1 hmemcat with h | h
            · exact hc (by simpa using h)
            · exact hcrest h
        · intro hf; rw [hm] at hf; cases hf
      · rw [he]
        constructor
        · intro _
          refine Or.inl ⟨?_, ?_⟩
          · exact foldDetect_num_mono sample rest _ p.1 (by simp)
          · intro hmemcat
            rcases foldDetect_cat_source sample rest _ p.1 hmemcat with h | h
            · exact hc (by simpa using h)
            · exact hcrest h
        · intro hf; rw [hm] at hf; cases hf
      · rw [he]
        constructor
        · intro _
          refine Or.inr (Or.inl ⟨?_, ?_⟩)
          · exact foldDetect_cat_mono sample rest _ p.1 (by simp)
          · intro hmemnum
            rcases foldDetect_num_source sample rest _ p.1 hmemnum with h | h
            · exact hn (by simpa using h)
            · exact hcrest h
        · intro hf; rw [hm] at hf; cases hf
    · rw [List.foldl_cons]
      have hne : p.1 ≠ c.1 := by
        intro hEq
        exact hcrest (hEq ▸ List.mem_map_of_mem Prod.fst hrest)
      have hn' : p.1 ∉ (detectStep sample st c).numeric_columns := by
        rcases detectStep_characterize sample st c with ⟨_, he⟩ | ⟨_, _, _, he⟩ |
            ⟨_, he⟩ | ⟨_, he⟩ <;> rw [he] <;> simp [hn, hne]
      have hc' : p.1 ∉ (detectStep sample st c).category_columns := by
        rcases detectStep_characterize sample st c with ⟨_, he⟩ | ⟨_, _, _, he⟩ |
            ⟨_, he⟩ | ⟨_, he⟩ <;> rw [he] <;> simp [hc, hne]
      exact ih (detectStep sample st c) p hrest hndr hn' hc'

theorem detect_lists (sample : List RawCell → List RawCell) (df : Table) :
    (detect_column_types sample df).numeric_columns =
      (df.foldl (detectStep sample) ⟨none, [], []⟩).numeric_columns ∧
    (detect_column_types sample df).category_columns =
      (df.foldl (detectStep sample) ⟨none, [], []⟩).category_columns := by
  rcases df with _ | ⟨⟨nm, cells⟩, rest⟩
  · exact ⟨rfl, rfl⟩
  · unfold detect_column_types
    dsimp only
    rcases h : (((nm, cells) :: rest : Table).foldl (detectStep sample)
        ⟨none, [], []⟩).id_column with _ | a <;> exact ⟨rfl, rfl⟩

theorem detect_id_of_fold (sample : List RawCell → List RawCell) (df : Table)
    (a : String)
    (h : (df.foldl (detectStep sample) ⟨none, [], []⟩).id_column = some a) :
    (detect_column_types sample df).id_column = some a := by
  rcases df with _ | ⟨⟨nm, cells⟩, rest⟩
  · exact h
  · unfold detect_column_types
    dsimp only
    rw [h]
    exact h

theorem imputeCol_length (name : String) (cells : List RawCell) :
    ((imputeCol name cells).1).length = cells.length := by
  unfold imputeCol
  dsimp only
  split_ifs <;> simp [normalizeCells]

theorem processNumCol_fst (acc : Table × List String) (cname : String) :
    (processNumCol acc cname).1 =
      acc.1.map (fun p => if p.1 = cname then (p.1, (imputeCol cname p.2).1) else p) := rfl

theorem procFold_shape : ∀ (ncols : List String) (acc : Table × List String),
    ((ncols.foldl processNumCol acc).1).map (fun p => (p.1, p.2.length)) =
      acc.1.map (fun p => (p.1, p.2.length)) := by
  intro ncols
  induction ncols with
  | nil => intro acc; rfl
  | cons cname rest ih =>
    intro acc
    rw [List.foldl_cons, ih (processNumCol acc cname), processNumCol_fst, List.map_map]
    refine List.map_congr_left ?_
    intro p _
    by_cases h : p.1 = cname <;> simp [h, imputeCol_length]

theorem procFold_mem : ∀ (ncols : List String) (acc : Table × List String)
    (p : String × List RawCell), p ∈ acc.1 → p.1 ∉ ncols →
    p ∈ (ncols.foldl processNumCol acc).1 := by
  intro ncols
  induction ncols with
  | nil => intro acc p hp _; exact hp
  | cons cname rest ih =>
    intro acc p hp hnin
    rw [List.foldl_cons]
    have hne : p.1 ≠ cname := fun h => hnin (by simp [h])
    refine ih (processNumCol acc cname) p ?_ (fun h => hnin (by simp [h]))
    rw [processNumCol_fst]
    have hmm := List.mem_map_of_mem
      (fun p : String × List RawCell =>
        if p.1 = cname then (p.1, (imputeCol cname p.2).1) else p) hp
    simpa [hne] using hmm

theorem imputeCol_allnum (name : String) (cells : List RawCell)
    (h : ∀ c ∈ cells, isNumCell c = true) :
    imputeCol name cells = (cells, []) := by
  have hnorm : normalizeCells cells = cells := by
    unfold normalizeCells
    have hcg : ∀ c ∈ cells,
        (match extract_numeric_value c with
         | some q => RawCell.num q
         | none => RawCell.missing) = id c := by
      intro c hc
      have := h c hc
      cases c with
      | num q => rfl
      | str s => cases this
      | missing => cases this
    rw [List.map_congr_left hcg, List.map_id]
  have hcm : countMissing cells = 0 := by
    unfold countMissing
    rw [List.length_eq_zero, List.filter_eq_nil]
    intro c hc
    have := h c hc
    cases c with
    | num q => simp [isMissingCell]
    | str s => cases this
    | missing => cases this
  unfold imputeCol
  rw [hnorm, hcm]
  simp [hcm]

theorem procFold_allnum : ∀ (ncols : List String) (acc : Table × List String),
    (∀ cname ∈ ncols, ∀ p ∈ acc.1, p.1 = cname → ∀ c ∈ p.2, isNumCell c = true) →
    ncols.foldl processNumCol acc = acc := by
  intro ncols
  induction ncols with
  | nil => intro acc _; rfl
  | cons cname rest ih =>
    intro acc hall
    rw [List.foldl_cons]
    have hstep : processNumCol acc cname = acc := by
      unfold processNumCol
      dsimp only
      have hmapid : acc.1.map (fun p =>
          if p.1 = cname then (p.1, (imputeCol cname p.2).1) else p) = acc.1 := by
        have hcg : ∀ p ∈ acc.1,
            (if p.1 = cname then (p.1, (imputeCol cname p.2).1) else p) = id p := by
          intro p hp
          obtain ⟨p1, p2⟩ := p
          by_cases hpc : p1 = cname
          · have hic := imputeCol_allnum cname p2
              (hall cname (by simp) (p1, p2) hp hpc)
            simp only [hpc] at hic ⊢
            simp [hic]
          · simp [hpc]
        rw [List.map_congr_left hcg, List.map_id]
      have hws : (match acc.1.find? (fun p => p.1 = cname) with
          | some p => (imputeCol cname p.2).2
          | none => []) = ([] : List String) := by
        rcases hf : acc.1.find? (fun p => p.1 = cname) with _ | p
        · rw [hf]
        · have hmem := List.mem_of_find?_eq_some hf
          have hpc : p.1 = cname := by
            have := List.find?_some hf
            simpa using this
          rw [hf]
          show (imputeCol cname p.2).2 = []
          rw [imputeCol_allnum cname p.2 (hall cname (by simp) p hmem hpc)]
      rw [hmapid, hws]
      simp
    rw [hstep]
    refine ih acc ?_
    intro c hc p hp hpc
    exact hall c (by simp [hc]) p hp hpc

theorem range_filterMap_get (l : List RawCell) :
    (List.range l.length).filterMap l.get? = l := by
  induction l with
  | nil => rfl
  | cons a t ih =>
    rw [List.length_cons, List.range_succ_eq_map, List.filterMap_cons,
      List.filterMap_map]
    have hcomp : ((a :: t).get? ∘ Nat.succ) = t.get? := funext fun i => rfl
    rw [hcomp, ih]
    rfl

theorem dropAllMissing_id (df : Table)
    (hrect : ∀ p ∈ df, p.2.length = nrows df)
    (hrows : ∀ i < nrows df, rowAllMissing df i = false) :
    dropAllMissingRows df = df := by
  unfold dropAllMissingRows
  dsimp only
  have hkeep : (List.range (nrows df)).filter (fun i => ! rowAllMissing df i) =
      List.range (nrows df) := by
    rw [List.filter_eq_self]
    intro i hi
    rw [hrows i (List.mem_range.1 hi)]
    rfl
  rw [hkeep]
  have hcg : ∀ p ∈ df,
      ((p.1, (List.range (nrows df)).filterMap p.2.get?) : String × List RawCell) = id p := by
    intro p hp
    rw [← hrect p hp, range_filterMap_get]
    rfl
  rw [List.map_congr_left hcg, List.map_id]

/-! ## Claim theorems -/

/-- C1: the dynamic-schema ingestion never reaches its success branch.  The
claim states that every accepted non-empty table yields a success response;
in the code, `upload_dynamic` reads `metadata['is_valid']` while the metadata
dict returned by `process_dynamic_csv` has no such key, so the KeyError sends
every non-empty upload into the boundary handler's 400 response (and the
response assembly would likewise fail on `column_types['id_columns']`).  This
theorem evaluates the endpoint: for every input and every sampling, the
outcome is the error branch. -/
theorem C1_upload_dynamic_always_error
    (sample : List RawCell → List RawCell) (df : Table) :
    upload_dynamic sample df = .badRequest
      (if nrows df = 0 then "CSV file is empty" else "Failed to process CSV file") := by
  by_cases h : nrows df = 0
  · simp [upload_dynamic, h]
  · simp [upload_dynamic, h, lookupMeta, metadataAssoc, List.find?]

/-- C2: on the fixed-schema path every violated bound and every blank
identifier/type contributes its message to the single `validation_errors`
report (membership in the report is equivalent to the corresponding
condition, with no short-circuiting between checks); a flowrate of 15000
yields exactly the message `Flowrate exceeds maximum allowed value (10000)`;
and when the report is non-empty the upload returns the 400 error and leaves
the datastore untouched (nothing is persisted). -/
theorem C2_validation_accumulation (store : List DatasetRec) (fname : String)
    (df : Table) :
    (("Flowrate cannot be negative" ∈ fixedValidationErrors df ↔
        ∃ q ∈ presentVals df "Flowrate", q < 0) ∧
     ("Flowrate exceeds maximum allowed value (10000)" ∈ fixedValidationErrors df ↔
        ∃ q ∈ presentVals df "Flowrate", 10000 < q) ∧
     ("Pressure cannot be negative" ∈ fixedValidationErrors df ↔
        ∃ q ∈ presentVals df "Pressure", q < 0) ∧
     ("Pressure exceeds maximum allowed value (1000)" ∈ fixedValidationErrors df ↔
        ∃ q ∈ presentVals df "Pressure", 1000 < q) ∧
     ("Temperature cannot be below absolute zero (-273.15°C)" ∈ fixedValidationErrors df ↔
        ∃ q ∈ presentVals df "Temperature", q < -273.15) ∧
     ("Temperature exceeds maximum allowed value (5000°C)" ∈ fixedValidationErrors df ↔
        ∃ q ∈ presentVals df "Temperature", 5000 < q) ∧
     ("Equipment Name cannot be empty" ∈ fixedValidationErrors df ↔
        ∃ c ∈ colCells df "Equipment Name", cellStrBlank c = true) ∧
     ("Equipment Type cannot be empty" ∈ fixedValidationErrors df ↔
        ∃ c ∈ colCells df "Type", cellStrBlank c = true)) ∧
    ((15000 : ℚ) ∈ presentVals df "Flowrate" →
      "Flowrate exceeds maximum allowed value (10000)" ∈ fixedValidationErrors df) ∧
    (nrows df ≠ 0 → missingRequired df = [] →
      nrows (dropSubsetAllMissing (parseNumericCols df)) ≠ 0 →
      fixedValidationErrors (cleanedFixed df) ≠ [] →
      upload store fname df =
        (.error "Data validation failed" (fixedValidationErrors (cleanedFixed df)), store)) := by
  refine ⟨⟨?_, ?_, ?_, ?_, ?_, ?_, ?_, ?_⟩, ?_, ?_⟩
  · unfold fixedValidationErrors; simp [mem_cond]
  · unfold fixedValidationErrors; simp [mem_cond]
  · unfold fixedValidationErrors; simp [mem_cond]
  · unfold fixedValidationErrors; simp [mem_cond]
  · unfold fixedValidationErrors; simp [mem_cond]
  · unfold fixedValidationErrors; simp [mem_cond]
  · unfold fixedValidationErrors; simp [mem_cond]
  · unfold fixedValidationErrors; simp [mem_cond]
  · intro h
    have hiff : "Flowrate exceeds maximum allowed value (10000)" ∈
        fixedValidationErrors df ↔ ∃ q ∈ presentVals df "Flowrate", 10000 < q := by
      unfold fixedValidationErrors; simp [mem_cond]
    exact hiff.2 ⟨15000, h, by norm_num⟩
  · intro h0 h1 h2 h3
    unfold cleanedFixed at h3 ⊢
    unfold upload
    simp [h0, h1, h2, h3, cleanedFixed]

/-- C2 witness: a concrete table violating all eight checks at once produces
all eight messages in one report, and the upload is rejected with the store
left empty. -/
theorem C2_validation_accumulation_witness :
    ("Flowrate exceeds maximum allowed value (10000)" ∈
       fixedValidationErrors (cleanedFixed c2WTable)) ∧
    upload [] "w.csv" c2WTable =
      (.error "Data validation failed" (fixedValidationErrors (cleanedFixed c2WTable)), []) :=
  ⟨(C2_validation_accumulation [] "w.csv" (cleanedFixed c2WTable)).2.1 (by decide),
   (C2_validation_accumulation [] "w.csv" c2WTable).2.2 (by decide) (by decide)
     (by decide) (by decide)⟩

/-- C3: the Value Normalizer behaves exactly as the spec states it — numbers
are returned coerced, a trimmed cell matching the sentinel set
case-insensitively is a declared absence, and otherwise the leftmost
`-?\d+\.?\d*` substring is parsed (`120 L/min` gives 120.0, `45C` gives 45.0,
no match gives no value). -/
theorem C3_normalize_contract :
    (∀ v, extract_numeric_value v = normalizeSpec v) ∧
    extract_numeric_value (.str "120 L/min") = some 120 ∧
    extract_numeric_value (.str "45C") = some 45 := by
  refine ⟨fun v => ?_, by decide, by decide⟩
  cases v with
  | num q => rfl
  | missing => rfl
  | str s =>
    unfold extract_numeric_value normalizeSpec
    have h : (upperChars (stripChars s.data) ∈ sentinelsUpper) ↔
        (∃ w ∈ sentinelsLower, upperChars (stripChars s.data) = upperChars w) := by
      rw [sentinelsUpper_eq_map]
      simp [List.mem_map, eq_comm]
    simp only [h]

/-- C4 counterexample: on the fixed-schema path the spec scenario's upload
succeeds, but the emitted warning is
`Flowrate has 1 missing or unparseable value(s) - rows will use average`,
not the claimed `Flowrate: Missing values filled with mean (120.00)` (that
text is the dynamic handler's format). -/
theorem C4_warning_text_counterexample :
    uploadWarnings (upload [] "s.csv" c4Table).1 =
      ["Flowrate has 1 missing or unparseable value(s) - rows will use average"] ∧
    "Flowrate: Missing values filled with mean (120.00)" ∉
      uploadWarnings (upload [] "s.csv" c4Table).1 := by
  decide

/-- C4 amended: for the scenario rows the missing Flowrate cell is imputed to
120.0 (the mean over the present values), the reported mean flowrate is
120.0, the upload succeeds, and the warning emitted is exactly
`Flowrate has 1 missing or unparseable value(s) - rows will use average`. -/
theorem C4_scenario_amended :
    colCells (cleanedFixed c4Table) "Flowrate" = [.num 120, .num 120] ∧
    uploadIsCreated (upload [] "s.csv" c4Table).1 = true ∧
    uploadFlowMean (upload [] "s.csv" c4Table).1 = some (some 120) ∧
    uploadWarnings (upload [] "s.csv" c4Table).1 =
      ["Flowrate has 1 missing or unparseable value(s) - rows will use average"] := by
  decide

/-- C5 counterexample: on a table whose keyword-free first column is numeric,
the detector classifies that column as Numeric during the scan and then the
fallback also selects it as the Identifier — the column is classified twice,
refuting the exactly-once claim. -/
theorem C5_fallback_double_classification :
    (detect_column_types takeFive c5Table).id_column = some "temp" ∧
    "temp" ∈ (detect_column_types takeFive c5Table).numeric_columns ∧
    (detect_column_types takeFive c5Table).category_columns = ["val"] := by
  decide

/-- C5 amended: for every table with distinct column names, exactly one
Identifier is selected (some column, or the first column by fallback); every
column that is not entirely missing is either assigned to exactly one of
Numeric/Categorical, or is the keyword-selected Identifier (assigned to
neither); entirely-missing columns are assigned to neither list.  The
fallback Identifier, however, may coincide with a column already classified
Numeric or Categorical, so that column is classified twice. -/
theorem C5_classified_amended (sample : List RawCell → List RawCell)
    (df : Table) (hnd : (df.map Prod.fst).Nodup) (hne : df ≠ []) :
    ((detect_column_types sample df).id_column.isSome = true) ∧
    (∀ p ∈ df, p.2.all isMissingCell = false →
      ((p.1 ∈ (detect_column_types sample df).numeric_columns ∧
        p.1 ∉ (detect_column_types sample df).category_columns) ∨
       (p.1 ∈ (detect_column_types sample df).category_columns ∧
        p.1 ∉ (detect_column_types sample df).numeric_columns) ∨
       ((detect_column_types sample df).id_column = some p.1 ∧
        hasIdKeyword p.1 = true ∧
        p.1 ∉ (detect_column_types sample df).numeric_columns ∧
        p.1 ∉ (detect_column_types sample df).category_columns))) ∧
    (∀ p ∈ df, p.2.all isMissingCell = true →
      p.1 ∉ (detect_column_types sample df).numeric_columns ∧
      p.1 ∉ (detect_column_types sample df).category_columns) := by
  refine ⟨?_, ?_, ?_⟩
  · rcases df with _ | ⟨⟨nm, cells⟩, rest⟩
    · exact absurd rfl hne
    · unfold detect_column_types
      dsimp only
      rcases h : (((nm, cells) :: rest : Table).foldl (detectStep sample)
          ⟨none, [], []⟩).id_column with _ | a
      · rfl
      · show ((((nm, cells) :: rest : Table).foldl (detectStep sample)
            ⟨none, [], []⟩)).id_column.isSome = true
        rw [h]
        rfl
  · intro p hp hmiss
    have hmain := (foldDetect_elem sample df ⟨none, [], []⟩ p hp hnd
      (by simp) (by simp)).1 hmiss
    rw [(detect_lists sample df).1, (detect_lists sample df).2]
    rcases hmain with h | h | ⟨ha, hb, hcc, hd⟩
    · exact Or.inl h
    · exact Or.inr (Or.inl h)
    · exact Or.inr (Or.inr ⟨detect_id_of_fold sample df p.1 ha, hb, hcc, hd⟩)
  · intro p hp hmiss
    have hmain := (foldDetect_elem sample df ⟨none, [], []⟩ p hp hnd
      (by simp) (by simp)).2 hmiss
    rw [(detect_lists sample df).1, (detect_lists sample df).2]
    exact hmain

/-- C5 witness: the amended classification theorem applied to the concrete
SensorID/Zone/Reading1/Reading2 table. -/
theorem C5_classified_amended_witness :
    (detect_column_types takeFive c8Table).id_column.isSome = true :=
  (C5_classified_amended takeFive c8Table (by decide) (by decide)).1

/-- C6: after every successful fixed-schema ingestion at most 5 datasets
remain in the store, and ingesting the same valid file 6 times sequentially
from an empty store leaves exactly the 5 most recent datasets — the one with
the oldest timestamp (1) is the one evicted. -/
theorem C6_retention :
    (∀ (store : List DatasetRec) (fname : String) (df : Table),
      uploadIsCreated (upload store fname df).1 = true →
      ((upload store fname df).2).length ≤ 5) ∧
    (ingestTimes "v.csv" oneRowTable 6).map DatasetRec.uploadedAt = [6, 5, 4, 3, 2] ∧
    (ingestTimes "v.csv" oneRowTable 6).length = 5 := by
  refine ⟨?_, by decide, by decide⟩
  intro store fname df h
  unfold upload at h ⊢
  dsimp only at h ⊢
  split_ifs at h ⊢
  · simp [uploadIsCreated] at h
  · simp [uploadIsCreated] at h
  · simp [uploadIsCreated] at h
  · simp [uploadIsCreated] at h
  · simp [List.length_take]

/-- C6 witness: the retention bound applied to a concrete successful
upload. -/
theorem C6_retention_witness :
    ((upload [] "v.csv" oneRowTable).2).length ≤ 5 :=
  C6_retention.1 [] "v.csv" oneRowTable (by decide)

/-- C7 counterexample: a single-row fixed-schema upload succeeds and its
flowrate standard deviation is pandas NaN (embedded as `none`), because the
fixed path calls `df[col].std()` without the n = 1 guard — refuting the
claim that both statistics paths never return NaN. -/
theorem C7_fixed_std_nan :
    uploadIsCreated (upload [] "a.csv" oneRowTable).1 = true ∧
    uploadFlowStdSq (upload [] "a.csv" oneRowTable).1 = some none := by
  decide

/-- C7 amended: the dynamic-schema statistics path computes the sample
standard deviation (variance divided by n − 1) and forces 0 for a single
present value, never NaN; the fixed-schema path uses the bare pandas `std`,
which is NaN (`none`) whenever the column has at most one present value. -/
theorem C7_std_dev_amended (xs : List ℚ) :
    (xs.length = 1 → dynStdSq xs = 0) ∧
    (2 ≤ xs.length → dynStdSq xs =
      ((xs.map (fun x => (x - ratMean xs) ^ 2)).sum) / ((xs.length : ℚ) - 1)) ∧
    (xs.length ≤ 1 → pandasStdSq xs = none) ∧
    (2 ≤ xs.length → pandasStdSq xs = some (dynStdSq xs)) := by
  refine ⟨?_, ?_, ?_, ?_⟩
  · intro h; simp [dynStdSq, h]
  · intro h
    have h1 : 1 < xs.length := by omega
    simp only [dynStdSq, if_pos h1, sampleVarQ]
    rw [Nat.cast_sub (by omega)]
    norm_num
  · intro h; simp [pandasStdSq, h]
  · intro h
    have h1 : ¬ xs.length ≤ 1 := by omega
    have h2 : 1 < xs.length := by omega
    simp [pandasStdSq, dynStdSq, h1, h2]

/-- C7 witness: the amended standard-deviation facts at concrete columns. -/
theorem C7_std_dev_amended_witness :
    dynStdSq [(3 : ℚ)] = 0 ∧ pandasStdSq [(3 : ℚ)] = none ∧
    pandasStdSq [(1 : ℚ), 3] = some (dynStdSq [(1 : ℚ), 3]) :=
  ⟨(C7_std_dev_amended [3]).1 rfl, (C7_std_dev_amended [3]).2.2.1 (by decide),
   (C7_std_dev_amended [1, 3]).2.2.2 (by decide)⟩

/-- C8: schema detection is deterministic once the sampling seed is fixed:
for any seed-indexed family of sampling functions (the global numpy PRNG
under `np.random.seed` is such a family), two runs of the detector with the
same seed and the same input produce identical classifications. -/
theorem C8_detection_deterministic
    (rng : Nat → List RawCell → List RawCell) (s1 s2 : Nat) (df : Table)
    (h : s1 = s2) :
    detect_column_types (rng s1) df = detect_column_types (rng s2) df := by
  rw [h]

/-- C8 witness: two same-seed runs on the scenario table agree, and the
classification is the expected one. -/
theorem C8_detection_deterministic_witness :
    detect_column_types (exRng 3) c8Table = detect_column_types (exRng 3) c8Table ∧
    detect_column_types (exRng 3) c8Table =
      ⟨some "SensorID", ["Zone"], ["Reading1", "Reading2"]⟩ :=
  ⟨C8_detection_deterministic exRng 3 3 c8Table rfl, by decide⟩

/-- C9 counterexample: a table with no missing value in its (numeric-
classified) column — the claim's notion of already cleaned — on which
re-running the cleaning produces new warnings and a changed table: the
column holds the unparseable text `abc`, which normalization turns into a
missing value that is then mean-imputed. -/
theorem C9_clean_not_idempotent :
    countMissing [RawCell.str "5", RawCell.str "7", RawCell.str "abc"] = 0 ∧
    (detect_column_types takeFive c9Table).numeric_columns = ["Reading"] ∧
    (process_dynamic_csv takeFive c9Table).warnings ≠ [] ∧
    (process_dynamic_csv takeFive c9Table).table ≠ c9Table := by
  decide

/-- C9 amended: cleaning is idempotent on tables whose numeric-classified
columns hold only numeric values (no missing values and no unparseable
text), that are rectangular, and that have no entirely-missing rows — on
such tables a cleaning run emits no warnings and returns the table
unchanged (a missing-free table can still change if a numeric column holds
unparseable text). -/
theorem C9_idempotent_amended (sample : List RawCell → List RawCell)
    (df : Table)
    (hrect : ∀ p ∈ df, p.2.length = nrows df)
    (hnum : ∀ p ∈ df, p.1 ∈ (detect_column_types sample df).numeric_columns →
      ∀ c ∈ p.2, isNumCell c = true)
    (hrows : ∀ i < nrows df, rowAllMissing df i = false) :
    (process_dynamic_csv sample df).callerTable = df ∧
    (process_dynamic_csv sample df).table = df ∧
    (process_dynamic_csv sample df).warnings = [] := by
  have hfold : (detect_column_types sample df).numeric_columns.foldl
      processNumCol (df, []) = (df, []) := by
    refine procFold_allnum _ _ ?_
    intro cname hc p hp hpc
    exact hnum p hp (hpc ▸ hc)
  have hdrop := dropAllMissing_id df hrect hrows
  refine ⟨?_, ?_, ?_⟩
  · show ((detect_column_types sample df).numeric_columns.foldl
      processNumCol (df, [])).1 = df
    rw [hfold]
  · show dropAllMissingRows ((detect_column_types sample df).numeric_columns.foldl
      processNumCol (df, [])).1 = df
    rw [hfold]
    exact hdrop
  · show ((detect_column_types sample df).numeric_columns.foldl
      processNumCol (df, [])).2 = []
    rw [hfold]

/-- C9 witness: the amended idempotence applied to the cleaned form of the
counterexample table. -/
theorem C9_idempotent_amended_witness :
    (process_dynamic_csv takeFive c9Cleaned).table = c9Cleaned :=
  (C9_idempotent_amended takeFive c9Cleaned (by decide) (by decide) (by decide)).2.1

/-- C10 counterexample: the cleaning operation overwrites the caller's
table — after `process_dynamic_csv` on a table whose numeric column holds
raw strings, the caller's object no longer equals the original, refuting the
claim that the raw input table is left unchanged. -/
theorem C10_caller_table_mutated :
    (process_dynamic_csv takeFive c10Table).callerTable ≠ c10Table := by
  decide

/-- C10 amended: `process_dynamic_csv` mutates the caller's table in place:
the numeric-classified columns are overwritten with their normalized and
imputed values, while the column names, every column's length, and the
columns not classified numeric are preserved on the caller's object, and the
returned table is the caller's mutated table with its all-missing rows
dropped. -/
theorem C10_mutation_amended (sample : List RawCell → List RawCell)
    (df : Table) :
    ((process_dynamic_csv sample df).callerTable.map Prod.fst = df.map Prod.fst) ∧
    ((process_dynamic_csv sample df).callerTable.map (fun p => (p.1, p.2.length)) =
      df.map (fun p => (p.1, p.2.length))) ∧
    (∀ p ∈ df, p.1 ∉ (process_dynamic_csv sample df).column_types.numeric_columns →
      p ∈ (process_dynamic_csv sample df).callerTable) ∧
    ((process_dynamic_csv sample df).table =
      dropAllMissingRows (process_dynamic_csv sample df).callerTable) := by
  refine ⟨?_, ?_, ?_, ?_⟩
  · have h := procFold_shape (detect_column_types sample df).numeric_columns (df, [])
    have h2 := congrArg (List.map Prod.fst) h
    rw [List.map_map, List.map_map] at h2
    exact h2
  · exact procFold_shape (detect_column_types sample df).numeric_columns (df, [])
  · intro p hp hnin
    exact procFold_mem (detect_column_types sample df).numeric_columns (df, []) p hp hnin
  · rfl

/-- C10 witness: a categorical column of the scenario table is preserved on
the caller's object. -/
theorem C10_mutation_amended_witness :
    (("Zone", [RawCell.str "North", RawCell.str "South"]) : String × List RawCell) ∈
      (process_dynamic_csv takeFive c8Table).callerTable :=
  (C10_mutation_amended takeFive c8Table).2.2.1
    ("Zone", [RawCell.str "North", RawCell.str "South"]) (by decide) (by decide)
